import Mathlib

/-!
Verification of the HackOHire pre-delinquency dashboard against its
natural-language specification.

The development shallowly embeds the parts of the repository that the
checked properties talk about:

* `MockData` — `src/src/lib/mockData.ts`: the synthetic customer
  generator.  `Math.random()` is modelled as an ambient stream
  `g : ℕ → ℚ` of draws together with a cursor, threaded by a small
  state monad `Gen`.  JavaScript numbers are modelled as `ℚ`;
  `toFixed`/`parseFloat` round-tripping is modelled by exact decimal
  rounding (`roundTo`), and calendar dates are modelled as integer
  day/month offsets from "now" (the ISO formatting itself is I/O and
  carries no logic).
* `BackendApi` — `src/src/lib/backendApi.ts`: the fetch wrapper with
  its 8000 ms timeout race and the error-normalisation logic of the
  public operations.  The network is modelled as an oracle
  `NetBehavior` saying when and how the underlying `fetch` would
  settle.
* `EmailServer` — `src/server/emailServer.js`: the Express relay for
  `POST /api/send-intervention`, with the SMTP provider modelled as an
  oracle for the single `sendMail` call; the result records which
  mails were handed to the provider.
* `Pages` — the pure derivations from `AlertsPage.tsx` and
  `RiskExplorerPage.tsx` (risk bucketing, alert-list filtering and
  sorting, contributing-feature sorting).  `Array.prototype.sort` is
  modelled by the stable `List.mergeSort`.
-/

namespace MockData

/-- One draw of the pseudo-random source plus the cursor into the ambient
stream: state monad over the position in the `Math.random()` stream. -/
def Gen (α : Type) : Type := (ℕ → ℚ) → ℕ → α × ℕ

instance : Monad Gen where
  pure a := fun _ st => (a, st)
  bind m f := fun g st =>
    match m g st with
    | (a, st') => f a g st'

/-- `Math.random()`: consume the next draw of the stream. -/
def nextRandom : Gen ℚ := fun g st => (g st, st + 1)

/-- `toFixed(decimals)` followed by `parseFloat`: round to `decimals`
decimal digits, half away towards `+∞` (ECMAScript `toFixed` picks the
larger candidate on ties). -/
def roundTo (decimals : ℕ) (q : ℚ) : ℚ :=
  ((⌊q * (10 : ℚ) ^ decimals + 1 / 2⌋ : ℤ) : ℚ) / (10 : ℚ) ^ decimals

/-- `Math.round`. -/
def mathRound (q : ℚ) : ℤ := ⌊q + 1 / 2⌋

/-- `rand(min, max) = Math.floor(Math.random() * (max - min + 1)) + min`. -/
def rand (min max : ℤ) : Gen ℤ := do
  let r ← nextRandom
  pure (⌊r * ((max - min + 1 : ℤ) : ℚ)⌋ + min)

/-- `randFloat(min, max, decimals) =
parseFloat((Math.random() * (max - min) + min).toFixed(decimals))`. -/
def randFloat (min max : ℚ) (decimals : ℕ) : Gen ℚ := do
  let r ← nextRandom
  pure (roundTo decimals (r * (max - min) + min))

/-- `pickRandom(arr) = arr[rand(0, arr.length - 1)]`. -/
def pickRandom {α : Type} [Inhabited α] (arr : List α) : Gen α := do
  let idx ← rand 0 ((arr.length : ℤ) - 1)
  pure (arr.getD idx.toNat default)

/-- One `{date, value}` point of a trend series; `date` is the day offset
from "today" (`0` = today, `-k` = `k` days ago). -/
structure DataPoint where
  date : ℤ
  value : ℚ

/-- The loop body of `generateTimeSeries`: fuel `n+1` corresponds to the
loop counter `i = n` (the source iterates `i` from `days` down to `0`),
`value` is the running walk value.  Each step adds
`trend + (Math.random() - 0.5) * volatility`, clamps at `0` via
`Math.max`, and emits the clamped value rounded to two decimals. -/
def generateTimeSeriesAux (volatility trend : ℚ) :
    ℕ → ℚ → Gen (List DataPoint)
  | 0, _ => pure []
  | n + 1, value => do
    let r ← nextRandom
    let value' := max 0 (value + trend + (r - 1 / 2) * volatility)
    let rest ← generateTimeSeriesAux volatility trend n value'
    pure ({ date := -(n : ℤ), value := roundTo 2 value' } :: rest)

/-- `generateTimeSeries(days, baseValue, volatility, trend)`. -/
def generateTimeSeries (days : ℕ) (baseValue volatility trend : ℚ) :
    Gen (List DataPoint) :=
  generateTimeSeriesAux volatility trend (days + 1) baseValue

def firstNames : List String :=
  ["James", "Sarah", "Michael", "Emma", "David", "Olivia", "Robert", "Sophia",
   "William", "Isabella", "John", "Mia", "Richard", "Charlotte", "Thomas",
   "Amelia", "Daniel", "Emily", "Matthew", "Abigail", "Charles", "Evelyn",
   "Joseph", "Harper", "Andrew", "Ella", "Christopher", "Grace", "George",
   "Victoria", "Edward", "Lily", "Henry", "Chloe", "Benjamin", "Zoe",
   "Samuel", "Hannah", "Alexander", "Aria", "Nathan", "Lucy", "Patrick",
   "Nora", "Simon", "Stella", "Peter", "Layla", "Mark", "Riley"]

def lastNames : List String :=
  ["Smith", "Johnson", "Williams", "Brown", "Jones", "Garcia", "Miller",
   "Davis", "Rodriguez", "Martinez", "Hernandez", "Lopez", "Gonzalez",
   "Wilson", "Anderson", "Thomas", "Taylor", "Moore", "Jackson", "Martin",
   "Lee", "Perez", "Thompson", "White", "Harris", "Sanchez", "Clark",
   "Ramirez", "Lewis", "Robinson", "Walker", "Young", "Allen", "King",
   "Wright", "Scott", "Torres", "Nguyen", "Hill", "Flores", "Green",
   "Adams", "Nelson", "Baker", "Hall", "Rivera", "Campbell", "Mitchell",
   "Carter", "Roberts"]

def signals : List String :=
  ["Salary credit delay shift", "Savings balance decline",
   "Credit utilization spike", "ATM withdrawal increase",
   "Missed utility payments", "Reduced discretionary spending",
   "Overdraft frequency increase", "Payment pattern irregularity",
   "Balance volatility increase", "Direct debit bounce"]

def interventionTypes : List String :=
  ["Payment holiday offer", "EMI date shift", "Temporary EMI reduction",
   "Restructuring discussion", "Auto-debit retry scheduling"]

def officers : List String :=
  ["A. Thompson", "R. Patel", "M. Chen", "S. Williams", "J. Rodriguez",
   "K. Singh", "L. Brown", "D. Wilson"]

/-- Entry of `interventionHistory`; `date` is a day offset from now. -/
structure InterventionRecord where
  date : ℤ
  type : String
  officerNotes : String
  status : String

structure ShapValue where
  feature : String
  value : ℚ
  direction : String

structure Deviation where
  feature : String
  current : ℚ
  baseline : ℚ
  deviation : ℚ
  signalStrength : String

/-- Entry of `paymentHistory`; `date` is a month offset from now. -/
structure Payment where
  date : ℤ
  amount : ℤ
  status : String

structure Customer where
  id : String
  name : String
  email : String
  age : ℤ
  accountType : String
  riskScore : ℤ
  riskCategory : String
  topSignal : String
  interventionStatus : String
  interventionHistory : List InterventionRecord
  officerAssigned : String
  monthlyIncome : ℤ
  outstandingBalance : ℤ
  creditUtilization : ℚ
  savingsBalance : ℤ
  riskScoreTrend : List DataPoint
  savingsBalanceTrend : List DataPoint
  salaryDelayTrend : List DataPoint
  creditUtilizationTrend : List DataPoint
  atmWithdrawalTrend : List DataPoint
  shapValues : List ShapValue
  deviations : List Deviation
  paymentHistory : List Payment
  originationScore : ℤ
  daysPastDue : ℤ
  liquidityStressIndex : ℚ

/-- `getRiskCategory` of `mockData.ts`: thresholds 75 / 50 / 30 on the
0–100 `riskScore`. -/
def getRiskCategory (score : ℤ) : String :=
  if 75 ≤ score then "High"
  else if 50 ≤ score then "Moderate"
  else if 30 ≤ score then "Early Stress"
  else "Low"

/-- `String(index + 1).padStart(5, "0")`. -/
def padStart5 (s : String) : String :=
  String.mk (List.replicate (5 - s.length) '0') ++ s

/-- The 12 `paymentHistory` entries: iteration `i` (fuel counts the
remaining entries) draws the amount and then picks a status from the
risk-dependent status list. -/
def paymentsAux (riskScore : ℤ) : ℕ → ℕ → Gen (List Payment)
  | 0, _ => pure []
  | n + 1, i => do
    let amount ← rand 200 1500
    let status ← pickRandom
      (if 60 < riskScore then
        ["on-time", "on-time", "late", "late", "missed"]
      else
        ["on-time", "on-time", "on-time", "on-time", "late"])
    let rest ← paymentsAux riskScore n (i + 1)
    pure ({ date := -((11 : ℤ) - i), amount := amount, status := status } :: rest)

/-- The tail of `generateCustomer(index)` after the `interventionStatus`
draw, with the already-drawn values as parameters; the draw sequence is
exactly the source's.  (The body of `generateCustomer` is split at the two
conditional draws purely so that the proofs can case on them; composing
`generateCustomer`, `generateCustomerRest` and this definition yields the
source function unchanged.) -/
def genCustomerAfterStatus (index : ℕ) (firstName lastName : String)
    (riskScore : ℤ) (topSignal interventionStatus : String) : Gen Customer := do
  let riskCategory := getRiskCategory riskScore
  let monthlyIncome ← rand 2000 12000
  let creditUtil ← randFloat 0.1 0.95 2
  let savBal ← rand 500 50000
  let history ←
    if interventionStatus ≠ "none" then do
      let d ← rand 1 30
      let ty ← pickRandom interventionTypes
      pure [({ date := -d, type := ty,
               officerNotes := "Initial review conducted. Customer contacted.",
               status := interventionStatus } : InterventionRecord)]
    else pure ([] : List InterventionRecord)
  let shap1 ← randFloat (-0.3) 0.8 2
  let shap2 ← randFloat (-0.2) 0.7 2
  let shap3 ← randFloat (-0.4) 0.6 2
  let shap4 ← randFloat (-0.3) 0.5 2
  let shap5 ← randFloat (-0.6) 0.3 2
  let shap6 ← randFloat (-0.2) 0.4 2
  let shap7 ← randFloat (-0.3) 0.5 2
  let shap8 ← randFloat (-0.5) 0.2 2
  let shapFeatures : List ShapValue :=
    [{ feature := "Salary Credit Delay", value := shap1,
       direction := if 50 < riskScore then "positive" else "negative" },
     { feature := "Savings Decline Rate", value := shap2,
       direction := if 40 < riskScore then "positive" else "negative" },
     { feature := "Credit Utilization", value := shap3,
       direction := if (0.6 : ℚ) < creditUtil then "positive" else "negative" },
     { feature := "ATM Withdrawal Freq", value := shap4,
       direction := if 60 < riskScore then "positive" else "negative" },
     { feature := "Payment Regularity", value := shap5,
       direction := if 50 < riskScore then "positive" else "negative" },
     { feature := "Balance Volatility", value := shap6,
       direction := if 45 < riskScore then "positive" else "negative" },
     { feature := "Overdraft Usage", value := shap7,
       direction := if 55 < riskScore then "positive" else "negative" },
     { feature := "Discretionary Spend", value := shap8, direction := "negative" }]
  let dev1c ← rand 1 15
  let dev1b ← rand 1 5
  let dev1d ← randFloat 0 10 2
  let dev2b ← rand 1000 5000
  let dev2d ← randFloat (-40) (-5) 2
  let dev3b ← rand 20 40
  let dev3d ← randFloat 5 50 2
  let dev4c ← rand 5 25
  let dev4b ← rand 3 8
  let dev4d ← randFloat 10 80 2
  let dev5c ← rand 0 4
  let dev5d ← randFloat 0 100 2
  let deviations : List Deviation :=
    [{ feature := "Salary Credit Day", current := (dev1c : ℚ),
       baseline := (dev1b : ℚ), deviation := dev1d,
       signalStrength := if 60 < riskScore then "Strong"
         else if 40 < riskScore then "Moderate" else "Weak" },
     { feature := "Savings Balance (£)", current := (savBal : ℚ),
       baseline := ((savBal + dev2b : ℤ) : ℚ), deviation := dev2d,
       signalStrength := if 50 < riskScore then "Strong" else "Moderate" },
     { feature := "Credit Utilization (%)",
       current := ((mathRound (creditUtil * 100) : ℤ) : ℚ),
       baseline := (dev3b : ℚ), deviation := dev3d,
       signalStrength := if (0.7 : ℚ) < creditUtil then "Strong" else "Weak" },
     { feature := "ATM Withdrawals/Month", current := (dev4c : ℚ),
       baseline := (dev4b : ℚ), deviation := dev4d,
       signalStrength := if 55 < riskScore then "Moderate" else "Weak" },
     { feature := "Missed Payments (90d)", current := (dev5c : ℚ),
       baseline := 0, deviation := dev5d,
       signalStrength := if 65 < riskScore then "Strong" else "Weak" }]
  let paymentHistory ← paymentsAux riskScore 12 0
  let age ← rand 22 68
  let accountType ← pickRandom
    ["Personal Loan", "Mortgage", "Credit Card", "Auto Loan", "Overdraft"]
  let officerAssigned ← pickRandom officers
  let outstandingBalance ← rand 5000 200000
  let rsBase ← rand 5 20
  let riskScoreTrend ← generateTimeSeries 60 ((riskScore - rsBase : ℤ) : ℚ) 3
    (if 50 < riskScore then 0.15 else -0.05)
  let sbBase ← rand 2000 8000
  let savingsBalanceTrend ← generateTimeSeries 60 ((savBal + sbBase : ℤ) : ℚ) 500
    (if 50 < riskScore then -80 else 20)
  let sdBase ← rand 0 3
  let salaryDelayTrend ← generateTimeSeries 60 (sdBase : ℚ) 1.5
    (if 50 < riskScore then 0.05 else 0)
  let cuBase ← rand 5 15
  let creditUtilizationTrend ← generateTimeSeries 60 (creditUtil * 100 - (cuBase : ℚ)) 3
    (if 50 < riskScore then 0.2 else -0.05)
  let awBase ← rand 5 10
  let atmWithdrawalTrend ← generateTimeSeries 60 (awBase : ℚ) 2
    (if 55 < riskScore then 0.1 else 0)
  let originationScore ← rand 300 850
  let daysPastDue ← if 60 < riskScore then rand 0 30 else pure 0
  let liquidityStressIndex ← randFloat 0 1 2
  pure
    { id := "CUS-" ++ padStart5 (toString (index + 1))
      name := firstName ++ " " ++ lastName
      email := firstName.toLower ++ "." ++ lastName.toLower ++ "@email.com"
      age := age
      accountType := accountType
      riskScore := riskScore
      riskCategory := riskCategory
      topSignal := topSignal
      interventionStatus := interventionStatus
      interventionHistory := history
      officerAssigned := officerAssigned
      monthlyIncome := monthlyIncome
      outstandingBalance := outstandingBalance
      creditUtilization := creditUtil
      savingsBalance := savBal
      riskScoreTrend := riskScoreTrend
      savingsBalanceTrend := savingsBalanceTrend
      salaryDelayTrend := salaryDelayTrend
      creditUtilizationTrend := creditUtilizationTrend
      atmWithdrawalTrend := atmWithdrawalTrend
      shapValues := shapFeatures
      deviations := deviations
      paymentHistory := paymentHistory
      originationScore := originationScore
      daysPastDue := daysPastDue
      liquidityStressIndex := liquidityStressIndex }

/-- `generateCustomer` from the `topSignal` draw onwards (see
`genCustomerAfterStatus`). -/
def generateCustomerRest (index : ℕ) (firstName lastName : String)
    (riskScore : ℤ) : Gen Customer := do
  let topSignal ← pickRandom signals
  let statuses : List String := ["none", "none", "none", "offered", "accepted", "declined"]
  let interventionStatus ←
    if 50 < riskScore then pickRandom statuses else pure "none"
  genCustomerAfterStatus index firstName lastName riskScore topSignal interventionStatus

/-- `generateCustomer(index)`, with every `Math.random()` consumption in
the source's evaluation order. -/
def generateCustomer (index : ℕ) : Gen Customer := do
  let firstName ← pickRandom firstNames
  let lastName ← pickRandom lastNames
  let riskScore ← rand 5 98
  generateCustomerRest index firstName lastName riskScore

/-- `Array.from({length: count}, (_, i) => generateCustomer(i))` starting
at index `i` with random-stream cursor `st`: the calls share the global
`Math.random()` stream sequentially. -/
def buildCustomers (g : ℕ → ℚ) : ℕ → ℕ → ℕ → List Customer
  | 0, _, _ => []
  | n + 1, i, st =>
    match generateCustomer i g st with
    | (c, st') => c :: buildCustomers g n (i + 1) st'

/-- The module-level `customers` array (120 records), as a function of the
ambient random stream. -/
def customers (g : ℕ → ℚ) : List Customer := buildCustomers g 120 0 0

theorem bind_apply {α β : Type} (m : Gen α) (f : α → Gen β) (g : ℕ → ℚ) (st : ℕ) :
    (m >>= f) g st = f (m g st).1 g (m g st).2 := by
  show (match m g st with | (a, st') => f a g st') = _
  rcases m g st with ⟨a, s⟩
  rfl

theorem pure_apply {α : Type} (a : α) (g : ℕ → ℚ) (st : ℕ) :
    (pure a : Gen α) g st = (a, st) := rfl

theorem nextRandom_apply (g : ℕ → ℚ) (st : ℕ) : nextRandom g st = (g st, st + 1) := rfl

theorem rand_fst (lo hi : ℤ) (g : ℕ → ℚ) (st : ℕ) :
    (rand lo hi g st).1 = ⌊g st * ((hi - lo + 1 : ℤ) : ℚ)⌋ + lo := rfl

theorem rand_snd (lo hi : ℤ) (g : ℕ → ℚ) (st : ℕ) : (rand lo hi g st).2 = st + 1 := rfl

theorem pickRandom_snd {α : Type} [Inhabited α] (arr : List α) (g : ℕ → ℚ) (st : ℕ) :
    (pickRandom arr g st).2 = st + 1 := rfl

theorem randFloat_snd (lo hi : ℚ) (d : ℕ) (g : ℕ → ℚ) (st : ℕ) :
    (randFloat lo hi d g st).2 = st + 1 := rfl

/-- One unfolding step of the random-walk loop. -/
theorem generateTimeSeriesAux_succ (volatility trend : ℚ) (n : ℕ) (value : ℚ)
    (g : ℕ → ℚ) (st : ℕ) :
    generateTimeSeriesAux volatility trend (n + 1) value g st
      = (({ date := -(n : ℤ),
            value := roundTo 2 (max 0 (value + trend + (g st - 1 / 2) * volatility)) } : DataPoint)
            :: (generateTimeSeriesAux volatility trend n
                  (max 0 (value + trend + (g st - 1 / 2) * volatility)) g (st + 1)).1,
         (generateTimeSeriesAux volatility trend n
            (max 0 (value + trend + (g st - 1 / 2) * volatility)) g (st + 1)).2) := by
  show (nextRandom >>= fun r => _) g st = _
  rw [bind_apply, nextRandom_apply]
  show (generateTimeSeriesAux _ _ _ _ >>= fun rest => _) g (st + 1) = _
  rw [bind_apply, pure_apply]

/-- `riskScore` of a generated customer is the third draw, scaled into
`[5, 98]`. -/
theorem genCustomerAfterStatus_riskFields (index : ℕ) (firstName lastName : String)
    (riskScore : ℤ) (topSignal interventionStatus : String) (g : ℕ → ℚ) (st : ℕ) :
    ((genCustomerAfterStatus index firstName lastName riskScore topSignal
        interventionStatus g st).1).riskScore = riskScore
    ∧ ((genCustomerAfterStatus index firstName lastName riskScore topSignal
        interventionStatus g st).1).riskCategory = getRiskCategory riskScore := by
  unfold genCustomerAfterStatus
  by_cases hs : interventionStatus = "none"
  · by_cases h60 : 60 < riskScore
    · simp only [hs, ne_eq, not_true_eq_false, if_false, if_pos h60]
      exact ⟨rfl, rfl⟩
    · simp only [hs, ne_eq, not_true_eq_false, if_false, if_neg h60]
      exact ⟨rfl, rfl⟩
  · by_cases h60 : 60 < riskScore
    · simp only [ne_eq, hs, not_false_eq_true, if_true, if_pos h60]
      exact ⟨rfl, rfl⟩
    · simp only [ne_eq, hs, not_false_eq_true, if_true, if_neg h60]
      exact ⟨rfl, rfl⟩

theorem generateCustomerRest_riskFields (index : ℕ) (firstName lastName : String)
    (riskScore : ℤ) (g : ℕ → ℚ) (st : ℕ) :
    ((generateCustomerRest index firstName lastName riskScore g st).1).riskScore = riskScore
    ∧ ((generateCustomerRest index firstName lastName riskScore g st).1).riskCategory
        = getRiskCategory riskScore := by
  unfold generateCustomerRest
  rw [bind_apply]
  by_cases h50 : 50 < riskScore
  · simp only [if_pos h50]
    rw [bind_apply]
    exact genCustomerAfterStatus_riskFields ..
  · simp only [if_neg h50]
    rw [bind_apply, pure_apply]
    exact genCustomerAfterStatus_riskFields ..

theorem generateCustomer_unfold (index : ℕ) (g : ℕ → ℚ) (st : ℕ) :
    generateCustomer index g st
      = generateCustomerRest index ((pickRandom firstNames g st).1)
          ((pickRandom lastNames g (st + 1)).1)
          (⌊g (st + 2) * (((98 : ℤ) - 5 + 1 : ℤ) : ℚ)⌋ + 5) g (st + 3) := rfl

theorem generateCustomer_riskScore (index : ℕ) (g : ℕ → ℚ) (st : ℕ) :
    ((generateCustomer index g st).1).riskScore
      = ⌊g (st + 2) * ((94 : ℤ) : ℚ)⌋ + 5 := by
  rw [generateCustomer_unfold]
  rw [(generateCustomerRest_riskFields ..).1]
  norm_num

theorem generateCustomer_riskCategory (index : ℕ) (g : ℕ → ℚ) (st : ℕ) :
    ((generateCustomer index g st).1).riskCategory
      = getRiskCategory ((generateCustomer index g st).1).riskScore := by
  rw [generateCustomer_unfold]
  rw [(generateCustomerRest_riskFields ..).1, (generateCustomerRest_riskFields ..).2]

theorem buildCustomers_length (g : ℕ → ℚ) :
    ∀ (count i st : ℕ), (buildCustomers g count i st).length = count := by
  intro count
  induction count with
  | zero => intro i st; rfl
  | succ n ih =>
    intro i st
    show (match generateCustomer i g st with
      | (c, st') => c :: buildCustomers g n (i + 1) st').length = n + 1
    rcases h : generateCustomer i g st with ⟨c, st'⟩
    simp [ih]

theorem buildCustomers_mem (g : ℕ → ℚ) :
    ∀ (count i st : ℕ) (c : Customer), c ∈ buildCustomers g count i st →
      ∃ (j : ℕ) (st₀ : ℕ), c = (generateCustomer j g st₀).1 := by
  intro count
  induction count with
  | zero => intro i st c hc; cases hc
  | succ n ih =>
    intro i st c hc
    have hc' : c ∈ (match generateCustomer i g st with
        | (c, st') => c :: buildCustomers g n (i + 1) st') := hc
    rcases h : generateCustomer i g st with ⟨c₀, st'⟩
    rw [h] at hc'
    rcases List.mem_cons.mp hc' with h1 | h2
    · exact ⟨i, st, by rw [h1, h]⟩
    · exact ih (i + 1) st' c h2

end MockData

namespace BackendApi

/-- A JavaScript exception as the client code observes it: either the
`DOMException` produced by an abort, or an `Error` with a message.  In the
supported runtimes both satisfy `instanceof Error` (modern `DOMException`
derives from `Error`), which the catch blocks test. -/
inductive JsError where
  | domAbort : JsError
  | jsError : String → JsError
deriving DecidableEq

/-- `error instanceof Error` for the two exception shapes above. -/
def instanceofError : JsError → Bool
  | .domAbort => true
  | .jsError _ => true

/-- `.message` of the exception. -/
def errMessage : JsError → String
  | .domAbort => "The operation was aborted."
  | .jsError m => m

/-- A settled HTTP response: status code, the `detail` field of the parsed
JSON body if present, and the payload the success path would parse. -/
structure HttpResponse (α : Type) where
  status : ℕ
  detail : Option String
  payload : α

/-- `response.ok`: status in the 2xx range. -/
def HttpResponse.ok {α : Type} (r : HttpResponse α) : Bool :=
  decide (200 ≤ r.status) && decide (r.status < 300)

/-- What the underlying `fetch` would do, as an oracle: settle with a
response at time `t` (ms), reject at time `t`, or never settle. -/
inductive NetBehavior (α : Type) where
  | respondsAt : ℚ → ℕ → Option String → α → NetBehavior α
  | failsAt : ℚ → JsError → NetBehavior α
  | never : NetBehavior α

def REQUEST_TIMEOUT_MS : ℚ := 8000

/-- Outcome of `fetchWithTimeout`: how the `Promise.race` settled, when it
settled (ms), and whether `clearTimeout` ran on the internal timer (the
`finally` block always runs it, since `timeoutId` is assigned
synchronously inside the executor). -/
structure RaceOutcome (α : Type) where
  result : Except JsError (HttpResponse α)
  settleTime : ℚ
  timerCleared : Bool

/-- `fetchWithTimeout`: race the network call against an 8000 ms timer
that aborts the request and rejects with `Error("REQUEST_TIMEOUT")`.  If
the network settles strictly before the deadline it wins the race;
otherwise the timer's synchronous rejection wins (the aborted fetch's own
`AbortError` rejection is queued after it and loses).  The `finally`
clears the timer on every path. -/
def fetchWithTimeout {α : Type} (net : NetBehavior α) : RaceOutcome α :=
  match net with
  | .respondsAt t status detail payload =>
    if t < REQUEST_TIMEOUT_MS then
      { result := .ok { status := status, detail := detail, payload := payload },
        settleTime := t, timerCleared := true }
    else
      { result := .error (.jsError "REQUEST_TIMEOUT"),
        settleTime := REQUEST_TIMEOUT_MS, timerCleared := true }
  | .failsAt t e =>
    if t < REQUEST_TIMEOUT_MS then
      { result := .error e, settleTime := t, timerCleared := true }
    else
      { result := .error (.jsError "REQUEST_TIMEOUT"),
        settleTime := REQUEST_TIMEOUT_MS, timerCleared := true }
  | .never =>
    { result := .error (.jsError "REQUEST_TIMEOUT"),
      settleTime := REQUEST_TIMEOUT_MS, timerCleared := true }

/-- The message of the normalized timeout error. -/
def timedOutMessage : String :=
  "Backend request timed out. Ensure FastAPI is running on http://localhost:8000"

/-- `normalizeFetchError(error, fallback)`. -/
def normalizeFetchError (e : JsError) (fallback : String) : JsError :=
  match e with
  | .domAbort => .jsError timedOutMessage
  | .jsError m =>
    if m = "REQUEST_TIMEOUT" then .jsError timedOutMessage else .jsError fallback

/-- JavaScript `a || b` on the `detail` field: `undefined` and the empty
string are falsy. -/
def jsOrStr (a : Option String) (b : String) : String :=
  match a with
  | none => b
  | some s => if s = "" then b else s

/-- The catch block of `getCustomerData` / `predictRisk` /
`getCustomerDrilldown` / `predictAndSendIntervention`: rethrow anything
that is `instanceof Error`, otherwise normalize with the fallback. -/
def rethrowOrNormalize (e : JsError) (fallback : String) : String :=
  if instanceofError e then errMessage e
  else errMessage (normalizeFetchError e fallback)

/-- `CustomerData` (the full behavioural record). -/
structure CustomerData where
  customer_id : String
  avg_salary_day_6m : ℚ
  current_salary_day : ℚ
  salary_delay_days : ℚ
  savings_6m_avg : ℚ
  current_savings : ℚ
  savings_drop_pct : ℚ
  discretionary_spend_6m_avg : ℚ
  current_discretionary_spend : ℚ
  discretionary_drop_pct : ℚ
  utility_payment_shift_days : ℚ
  atm_withdrawal_increase_pct : ℚ
  credit_utilization_pct : ℚ
  past_emi_delays_6m : ℚ
  historical_stability_index : ℚ
  historical_category : ℚ

structure PredictionResponse where
  customer_id : String
  risk_probability : ℚ
  risk_category : String
  top_risk_drivers : List (String × ℚ)
  model_version : String
  prediction_timestamp : String

structure PortfolioSummary where
  low_risk_count : ℤ
  medium_risk_count : ℤ
  high_risk_count : ℤ
  total_customers : ℤ
  generated_at : String

structure CustomerDrilldown where
  customer_id : String
  behavioural_score : ℚ
  liquidity_score : ℚ
  delinquency_probability : ℚ
  contributing_features : List (String × ℚ)

structure CustomerRiskItem where
  customer_id : String
  risk_probability : ℚ
  risk_category : String

structure HealthResponse where
  status : String
  model_loaded : Bool
  customer_data_loaded : Bool
  model_version : String
  total_customers : ℤ

structure RiskTrendPoint where
  week : String
  avg_risk_score : ℚ
  delinquency_probability : ℚ

structure FeatureImportancePoint where
  feature_name : String
  importance_score : ℚ

structure HeatmapRow where
  cohort : String
  bucket0_20 : ℤ
  bucket20_40 : ℤ
  bucket40_60 : ℤ
  bucket60_80 : ℤ
  bucket80_100 : ℤ

/-- The `intervention` part of `predictAndSendIntervention`'s response. -/
structure InterventionOutcome where
  threshold_exceeded : Bool
  email_sent : Bool
  email_subject : Option String
  email_error : Option String

structure PredictAndSendResult where
  prediction : PredictionResponse
  intervention : InterventionOutcome

/-- The try block shared by the "detail-preserving" operations: on a
non-2xx response throw `Error(error.detail || "HTTP <status>")`, otherwise
return the parsed payload. -/
def tryDetailOp {α : Type} (net : NetBehavior α) : Except JsError α :=
  match (fetchWithTimeout net).result with
  | .error e => .error e
  | .ok resp =>
    if resp.ok then .ok resp.payload
    else .error (.jsError (jsOrStr resp.detail ("HTTP " ++ toString resp.status)))

/-- The try block shared by the generic operations (`getPortfolioSummary`
etc.): on a non-2xx response throw `Error("HTTP <status>")`. -/
def tryGenericOp {α : Type} (net : NetBehavior α) : Except JsError α :=
  match (fetchWithTimeout net).result with
  | .error e => .error e
  | .ok resp =>
    if resp.ok then .ok resp.payload
    else .error (.jsError ("HTTP " ++ toString resp.status))

/-- `getCustomerData(customerId)`: detail-preserving try block, catch
rethrows `Error`s as-is. -/
def getCustomerData (net : NetBehavior CustomerData) : Except String CustomerData :=
  match tryDetailOp net with
  | .ok v => .ok v
  | .error e => .error (rethrowOrNormalize e "Failed to retrieve customer data")

/-- `predictRisk(customerId)`. -/
def predictRisk (net : NetBehavior PredictionResponse) : Except String PredictionResponse :=
  match tryDetailOp net with
  | .ok v => .ok v
  | .error e => .error (rethrowOrNormalize e "Prediction failed")

/-- `getCustomerDrilldown(customerId)`. -/
def getCustomerDrilldown (net : NetBehavior CustomerDrilldown) :
    Except String CustomerDrilldown :=
  match tryDetailOp net with
  | .ok v => .ok v
  | .error e => .error (rethrowOrNormalize e "Failed to load customer drilldown")

/-- `predictAndSendIntervention(customerId)`. -/
def predictAndSendIntervention (net : NetBehavior PredictAndSendResult) :
    Except String PredictAndSendResult :=
  match tryDetailOp net with
  | .ok v => .ok v
  | .error e => .error (rethrowOrNormalize e "Prediction and intervention failed")

/-- `getPortfolioSummary()`: generic try block, catch normalizes every
failure through `normalizeFetchError` with this operation's fallback. -/
def getPortfolioSummary (net : NetBehavior PortfolioSummary) :
    Except String PortfolioSummary :=
  match tryGenericOp net with
  | .ok v => .ok v
  | .error e => .error (errMessage (normalizeFetchError e "Failed to load portfolio summary"))

/-- `checkBackendHealth()`. -/
def checkBackendHealth (net : NetBehavior HealthResponse) : Except String HealthResponse :=
  match tryGenericOp net with
  | .ok v => .ok v
  | .error e => .error (errMessage (normalizeFetchError e
      "Unable to connect to backend. Ensure FastAPI server is running on http://localhost:8000"))

/-- `getCustomerList(limit?)`. -/
def getCustomerList (net : NetBehavior (List String)) : Except String (List String) :=
  match tryGenericOp net with
  | .ok v => .ok v
  | .error e => .error (errMessage (normalizeFetchError e
      "Unable to retrieve customer list from backend"))

/-- `getRiskTrend()`. -/
def getRiskTrend (net : NetBehavior (List RiskTrendPoint)) :
    Except String (List RiskTrendPoint) :=
  match tryGenericOp net with
  | .ok v => .ok v
  | .error e => .error (errMessage (normalizeFetchError e "Failed to load risk trend data"))

/-- `getFeatureImportance()`. -/
def getFeatureImportance (net : NetBehavior (List FeatureImportancePoint)) :
    Except String (List FeatureImportancePoint) :=
  match tryGenericOp net with
  | .ok v => .ok v
  | .error e => .error (errMessage (normalizeFetchError e "Failed to load feature importance"))

/-- `getPortfolioHeatmap()`. -/
def getPortfolioHeatmap (net : NetBehavior (List HeatmapRow)) :
    Except String (List HeatmapRow) :=
  match tryGenericOp net with
  | .ok v => .ok v
  | .error e => .error (errMessage (normalizeFetchError e "Failed to load heatmap data"))

/-- `getCustomerRiskList(limit?)`. -/
def getCustomerRiskList (net : NetBehavior (List CustomerRiskItem)) :
    Except String (List CustomerRiskItem) :=
  match tryGenericOp net with
  | .ok v => .ok v
  | .error e => .error (errMessage (normalizeFetchError e "Failed to load customer risk list"))

end BackendApi

namespace Pages

open BackendApi

/-- `getDelinquencyRiskLevel(probability)` from the explainability view in
`AlertsPage.tsx`: bucket the probability (scaled to a percentage) at 75
and 40. -/
def getDelinquencyRiskLevel (probability : ℚ) : String :=
  let pct := probability * 100
  if 75 ≤ pct then "High Risk"
  else if 40 ≤ pct then "Medium Risk"
  else "Low Risk"

/-- JavaScript `interventionStatuses[c.customer_id] || "none"`: the status
map is an association list, a missing (or empty-string) entry means
`"none"`. -/
def statusOf (statuses : List (String × String)) (customerId : String) : String :=
  jsOrStr (statuses.lookup customerId) "none"

/-- The comparator `(a, b) => b.risk_probability - a.risk_probability` as
a `≤`-test: `a` may precede `b` iff the comparator is non-positive. -/
def byDescendingRisk (a b : CustomerRiskItem) : Bool :=
  decide (b.risk_probability ≤ a.risk_probability)

/-- `alertCustomers` of `AlertsPage.tsx`: threshold filter, descending
sort, then the risk-category and intervention-status filters. -/
def alertCustomers (customers : List CustomerRiskItem) (riskFilter statusFilter : String)
    (statuses : List (String × String)) : List CustomerRiskItem :=
  ((((customers.filter
        (fun c => decide ((0.3 : ℚ) ≤ c.risk_probability))).mergeSort
          byDescendingRisk).filter
        (fun c => riskFilter == "all" || c.risk_category == riskFilter)).filter
        (fun c => statusFilter == "all" || statusOf statuses c.customer_id == statusFilter))

/-- An entry of the contributing-features chart. -/
structure FeaturePoint where
  feature : String
  value : ℚ

/-- The comparator `(a, b) => Math.abs(b.value) - Math.abs(a.value)` as a
`≤`-test. -/
def byDescendingAbsValue (a b : FeaturePoint) : Bool :=
  decide (|b.value| ≤ |a.value|)

/-- `contributingSeries` of `RiskExplorerPage.tsx`: `[]` while no
drilldown is loaded, otherwise the entries of `contributing_features`
sorted by absolute impact, descending. -/
def contributingSeries (drilldown : Option CustomerDrilldown) : List FeaturePoint :=
  match drilldown with
  | none => []
  | some d =>
    (d.contributing_features.map
      (fun p => ({ feature := p.1, value := p.2 } : FeaturePoint))).mergeSort
      byDescendingAbsValue

end Pages

namespace EmailServer

open BackendApi (jsOrStr)

/-- An environment variable: absent or a string (the empty string is
falsy, like absence, under `||` and `!`). -/
def isFalsy (v : Option String) : Bool :=
  match v with
  | none => true
  | some s => decide (s = "")

/-- JavaScript `a || b` for two optional strings. -/
def jsOrOpt (a b : Option String) : Option String :=
  if isFalsy a then b else a

/-- The parts of `smtpConfig` observed by the endpoint (`from` is
`SMTP_FROM || SMTP_USER`). -/
structure SmtpConfig where
  host : Option String
  user : Option String
  pass : Option String
  fromAddr : Option String

/-- Build `smtpConfig` from the environment. -/
def mkSmtpConfig (envHost envUser envPass envFrom : Option String) : SmtpConfig :=
  { host := envHost, user := envUser, pass := envPass,
    fromAddr := jsOrOpt envFrom envUser }

/-- `FIXED_TO_ADDRESS = process.env.FIXED_TO_ADDRESS || "sohamjagushte2@gmail.com"`. -/
def fixedToAddress (env : Option String) : String :=
  jsOrStr env "sohamjagushte2@gmail.com"

/-- `hasMissingSmtpConfig()`. -/
def hasMissingSmtpConfig (cfg : SmtpConfig) : Bool :=
  isFalsy cfg.host || isFalsy cfg.user || isFalsy cfg.pass || isFalsy cfg.fromAddr

/-- The request body of `POST /api/send-intervention` (each field possibly
absent). -/
structure ReqBody where
  customerId : Option String
  customerName : Option String
  topSignal : Option String
  selectedIntervention : Option String
  officerNotes : Option String

/-- `req.body || {}` when the body is absent. -/
def emptyBody : ReqBody :=
  { customerId := none, customerName := none, topSignal := none,
    selectedIntervention := none, officerNotes := none }

/-- A mail handed to `transporter.sendMail`. -/
structure Mail where
  fromAddr : String
  toAddr : String
  subject : String
  textBody : String
  htmlBody : String

/-- The single `sendMail` call as an oracle: the provider either resolves
with a message id or rejects (`some msg` when the rejection is an `Error`
with that message, `none` for a non-`Error` rejection). -/
inductive SendOutcome where
  | resolved : String → SendOutcome
  | rejected : Option String → SendOutcome

/-- The response body: `res.send(text)` or `res.json({messageId, to})`. -/
inductive ResBody where
  | text : String → ResBody
  | json : String → String → ResBody
deriving DecidableEq

/-- What one request to the endpoint produced: the HTTP status, the
response body, and the list of mails handed to the SMTP provider. -/
structure HandlerResult where
  status : ℕ
  body : ResBody
  sentMails : List Mail

/-- `.filter(Boolean)` on an array of strings and `undefined`s: keep
exactly the entries that are truthy, i.e. present and non-empty. -/
def jsFilterBoolean (lines : List (Option String)) : List String :=
  (lines.filterMap id).filter (fun l => !(l == ""))

/-- The plain-text body: the source's line array — including its empty
spacer entries and the two conditional officer-notes entries
(`undefined` when `officerNotes` is falsy) — passed through
`.filter(Boolean)` (which drops the `undefined`s *and* the empty spacer
lines) and joined with `"\n"`. -/
def interventionText (customerName topSignal selectedIntervention : String)
    (officerNotes : Option String) : String :=
  String.intercalate "\n" (jsFilterBoolean
    [some ("Dear " ++ customerName ++ ","),
     some "",
     some "We have noticed some changes in your financial activity and would like to offer support.",
     some ("Our analysis indicates potential financial stress signals related to "
        ++ topSignal.toLower ++ "."),
     some "",
     some ("We would like to offer you the following support option: "
        ++ selectedIntervention ++ "."),
     some "",
     some "Please contact your relationship manager to discuss this further.",
     some "We are here to help you manage your finances effectively.",
     some "",
     some "Kind regards,",
     some "Financial Support Team",
     (if isFalsy officerNotes then none else some ""),
     (if isFalsy officerNotes then none
      else some ("Officer Notes: " ++ officerNotes.getD ""))])

/-- The HTML body: the source's template literal verbatim (indentation and
newlines included) after its trailing `.trim()`, with the conditional
officer-notes paragraph substituted for the final interpolation. -/
def interventionHtml (customerName topSignal selectedIntervention : String)
    (officerNotes : Option String) : String :=
  "<div style=\"font-family: Arial, sans-serif; color: #111; line-height: 1.5;\">\n"
    ++ "      <p>Dear " ++ customerName ++ ",</p>\n"
    ++ "      <p>\n"
    ++ "        We have noticed some changes in your financial activity and would like to offer support.\n"
    ++ "        Our analysis indicates potential financial stress signals related to\n"
    ++ "        <strong>" ++ topSignal.toLower ++ "</strong>.\n"
    ++ "      </p>\n"
    ++ "      <p>\n"
    ++ "        We would like to offer you the following support option:\n"
    ++ "        <strong>" ++ selectedIntervention ++ "</strong>.\n"
    ++ "      </p>\n"
    ++ "      <p>\n"
    ++ "        Please contact your relationship manager to discuss this further.\n"
    ++ "        We are here to help you manage your finances effectively.\n"
    ++ "      </p>\n"
    ++ "      <p>Kind regards,<br />Financial Support Team</p>\n"
    ++ "      "
    ++ (if isFalsy officerNotes then ""
        else "<p><strong>Officer Notes:</strong> " ++ officerNotes.getD "" ++ "</p>")
    ++ "\n"
    ++ "    </div>"

/-- The `POST /api/send-intervention` handler: reject with 500 if the SMTP
configuration is incomplete, then with 400 if a required field is falsy,
otherwise compose the mail, hand it to the provider once, and answer with
`{messageId, to}` (status 200) or the provider's error message
(status 500). -/
def handleSendIntervention (cfg : SmtpConfig) (fixedTo : String)
    (reqBody : Option ReqBody) (send : SendOutcome) : HandlerResult :=
  if hasMissingSmtpConfig cfg then
    { status := 500, body := .text "Missing SMTP configuration in .env", sentMails := [] }
  else
    let b := reqBody.getD emptyBody
    if isFalsy b.customerId || isFalsy b.customerName || isFalsy b.topSignal
        || isFalsy b.selectedIntervention then
      { status := 400, body := .text "Missing required email fields", sentMails := [] }
    else
      let customerId := (b.customerId).getD ""
      let customerName := (b.customerName).getD ""
      let topSignal := (b.topSignal).getD ""
      let selectedIntervention := (b.selectedIntervention).getD ""
      let subject := "Support Options Available — " ++ customerId
      let mail : Mail :=
        { fromAddr := (cfg.fromAddr).getD "",
          toAddr := fixedTo,
          subject := subject,
          textBody := interventionText customerName topSignal selectedIntervention b.officerNotes,
          htmlBody := interventionHtml customerName topSignal selectedIntervention b.officerNotes }
      match send with
      | .resolved messageId =>
        { status := 200, body := .json messageId fixedTo, sentMails := [mail] }
      | .rejected errMsg =>
        { status := 500,
          body := .text (match errMsg with
            | some m => m
            | none => "SMTP send failed"),
          sentMails := [mail] }

end EmailServer

namespace MockData

theorem roundTo_nonneg (decimals : ℕ) (q : ℚ) (hq : 0 ≤ q) : 0 ≤ roundTo decimals q := by
  unfold roundTo
  apply div_nonneg
  · have : (0 : ℤ) ≤ ⌊q * (10 : ℚ) ^ decimals + 1 / 2⌋ := by
      rw [Int.le_floor]
      push_cast
      positivity
    exact_mod_cast this
  · positivity

theorem generateTimeSeriesAux_length (volatility trend : ℚ) (g : ℕ → ℚ) :
    ∀ (n : ℕ) (value : ℚ) (st : ℕ),
      ((generateTimeSeriesAux volatility trend n value) g st).1.length = n := by
  intro n
  induction n with
  | zero => intro value st; rfl
  | succ k ih =>
    intro value st
    rw [generateTimeSeriesAux_succ]
    simp [ih]

theorem generateTimeSeriesAux_nonneg (volatility trend : ℚ) (g : ℕ → ℚ) :
    ∀ (n : ℕ) (value : ℚ) (st : ℕ),
      ∀ p ∈ ((generateTimeSeriesAux volatility trend n value) g st).1, 0 ≤ p.value := by
  intro n
  induction n with
  | zero => intro value st p hp; cases hp
  | succ k ih =>
    intro value st p hp
    rw [generateTimeSeriesAux_succ] at hp
    rcases List.mem_cons.mp hp with h | h
    · rw [h]
      exact roundTo_nonneg 2 _ (le_max_left 0 _)
    · exact ih _ _ p h

theorem floor_scale_bounds (r : ℚ) (hr0 : 0 ≤ r) (hr1 : r < 1) (K : ℤ) (hK : 0 < K) :
    0 ≤ ⌊r * (K : ℚ)⌋ ∧ ⌊r * (K : ℚ)⌋ < K := by
  constructor
  · rw [Int.le_floor]
    push_cast
    have : (0 : ℚ) ≤ (K : ℚ) := by exact_mod_cast le_of_lt hK
    positivity
  · rw [Int.floor_lt]
    have hKq : (0 : ℚ) < (K : ℚ) := by exact_mod_cast hK
    calc r * (K : ℚ) < 1 * (K : ℚ) := by
          exact mul_lt_mul_of_pos_right hr1 hKq
      _ = (K : ℚ) := one_mul _

theorem generateCustomer_riskScore_bounds (index : ℕ) (g : ℕ → ℚ) (st : ℕ)
    (hg : ∀ n, 0 ≤ g n ∧ g n < 1) :
    5 ≤ ((generateCustomer index g st).1).riskScore
      ∧ ((generateCustomer index g st).1).riskScore ≤ 98 := by
  rw [generateCustomer_riskScore]
  rcases hg (st + 2) with ⟨h0, h1⟩
  rcases floor_scale_bounds (g (st + 2)) h0 h1 94 (by norm_num) with ⟨hlo, hhi⟩
  omega

end MockData

/-- The bucketing rule family the specification prescribes for real data
(`LOW` below 0.40, `MEDIUM` from 0.40 up to below 0.70, `HIGH` from 0.70),
applied to the synthetic generator's 0–100 `riskScore` scaled to a
probability.  This definition follows the specification's words, for
comparison against the source's `getRiskCategory`. -/
def specRiskCategoryOfScore (score : ℤ) : String :=
  if (score : ℚ) / 100 < 0.40 then "LOW"
  else if (score : ℚ) / 100 < 0.70 then "MEDIUM"
  else "HIGH"

/-- The evident correspondence between the synthetic generator's category
labels and the specification family's labels; `"Early Stress"` has no
counterpart in the family and is left unchanged. -/
def mockToFamilyLabel (s : String) : String :=
  if s = "High" then "HIGH"
  else if s = "Moderate" then "MEDIUM"
  else if s = "Low" then "LOW"
  else s

/-- A constant random stream with every draw `67/94`, which makes
`rand(5, 98)` return `⌊67/94 · 94⌋ + 5 = 72`. -/
def cxStream : ℕ → ℚ := fun _ => 67 / 94

/-- A constant random stream with every draw `1/2`. -/
def halfStream : ℕ → ℚ := fun _ => 1 / 2

/-- C7 (confirmed): for every number of days, base value, volatility,
trend and random stream, the random-walk series has exactly `days + 1`
`{date, value}` points and no emitted value is negative (each step is
clamped at 0 before being rounded and emitted). -/
theorem c7_random_walk_length_and_nonneg (g : ℕ → ℚ) (st : ℕ) (days : ℕ)
    (baseValue volatility trend : ℚ) :
    ((MockData.generateTimeSeries days baseValue volatility trend) g st).1.length = days + 1
    ∧ ∀ p ∈ ((MockData.generateTimeSeries days baseValue volatility trend) g st).1,
        0 ≤ p.value := by
  constructor
  · exact MockData.generateTimeSeriesAux_length volatility trend g (days + 1) baseValue st
  · exact MockData.generateTimeSeriesAux_nonneg volatility trend g (days + 1) baseValue st

/-- C8 (confirmed): for every random stream whose draws lie in `[0, 1)`
(as `Math.random()`'s do), the module-level `customers` collection has
exactly 120 records and every record's `riskScore` (an integer by
construction) lies in `[5, 98]`. -/
theorem c8_customers_count_and_riskScore_range (g : ℕ → ℚ)
    (hg : ∀ n, 0 ≤ g n ∧ g n < 1) :
    (MockData.customers g).length = 120
    ∧ ∀ c ∈ MockData.customers g, 5 ≤ c.riskScore ∧ c.riskScore ≤ 98 := by
  constructor
  · exact MockData.buildCustomers_length g 120 0 0
  · intro c hc
    rcases MockData.buildCustomers_mem g 120 0 0 c hc with ⟨j, st₀, rfl⟩
    exact MockData.generateCustomer_riskScore_bounds j g st₀ hg

theorem c8_customers_count_and_riskScore_range_witness :
    (∀ n, 0 ≤ halfStream n ∧ halfStream n < 1)
    ∧ ((MockData.customers halfStream).length = 120
        ∧ ∀ c ∈ MockData.customers halfStream, 5 ≤ c.riskScore ∧ c.riskScore ≤ 98) := by
  have h : ∀ n, 0 ≤ halfStream n ∧ halfStream n < 1 := by
    intro n
    constructor <;> norm_num [halfStream]
  exact ⟨h, c8_customers_count_and_riskScore_range halfStream h⟩

/-- C3 (counterexample): the synthetic customer produced by the generator
from the constant stream `67/94` has `riskScore = 72` and
`riskCategory = "Moderate"`, while the specification's bucketing family
(`LOW < 0.40 ≤ MEDIUM < 0.70 ≤ HIGH`) puts a score of 72 in `HIGH`; so
the generator's category is not the one obtained from the real-data
thresholds (the mock thresholds are 30/50/75, with the extra category
`"Early Stress"`). -/
theorem c3_category_mismatch_counterexample :
    ((MockData.generateCustomer 0 cxStream 0).1).riskScore = 72
    ∧ ((MockData.generateCustomer 0 cxStream 0).1).riskCategory = "Moderate"
    ∧ specRiskCategoryOfScore 72 = "HIGH"
    ∧ mockToFamilyLabel ((MockData.generateCustomer 0 cxStream 0).1).riskCategory
        ≠ specRiskCategoryOfScore ((MockData.generateCustomer 0 cxStream 0).1).riskScore := by
  have hscore : ((MockData.generateCustomer 0 cxStream 0).1).riskScore = 72 := by
    rw [MockData.generateCustomer_riskScore]
    norm_num [cxStream]
  have hcat : ((MockData.generateCustomer 0 cxStream 0).1).riskCategory = "Moderate" := by
    rw [MockData.generateCustomer_riskCategory, hscore]
    decide
  have hspec : specRiskCategoryOfScore 72 = "HIGH" := by
    norm_num [specRiskCategoryOfScore]
  refine ⟨hscore, hcat, hspec, ?_⟩
  rw [hscore, hcat, hspec]
  decide

/-- C3 (amended): every synthetic customer's `riskCategory` is derived
from its `riskScore` by the generator's own bucketing `getRiskCategory`
(`Low < 30 ≤ Early Stress < 50 ≤ Moderate < 75 ≤ High` on the 0–100
score), which is internally consistent but differs from the
`LOW < 0.40 ≤ MEDIUM < 0.70 ≤ HIGH` family used for real data. -/
theorem c3_category_consistent_with_mock_bucketing (g : ℕ → ℚ)
    (c : MockData.Customer) (hc : c ∈ MockData.customers g) :
    c.riskCategory = MockData.getRiskCategory c.riskScore := by
  rcases MockData.buildCustomers_mem g 120 0 0 c hc with ⟨j, st₀, rfl⟩
  exact MockData.generateCustomer_riskCategory j g st₀

theorem c3_category_consistent_with_mock_bucketing_witness :
    ((MockData.generateCustomer 0 halfStream 0).1 ∈ MockData.customers halfStream)
    ∧ ((MockData.generateCustomer 0 halfStream 0).1).riskCategory
        = MockData.getRiskCategory ((MockData.generateCustomer 0 halfStream 0).1).riskScore := by
  have hmem : (MockData.generateCustomer 0 halfStream 0).1 ∈ MockData.customers halfStream := by
    have h : MockData.customers halfStream
        = (MockData.generateCustomer 0 halfStream 0).1
            :: MockData.buildCustomers halfStream 119 1
                 ((MockData.generateCustomer 0 halfStream 0).2) := by
      with_unfolding_all rfl
    rw [h]
    exact List.mem_cons_self _ _
  exact ⟨hmem, c3_category_consistent_with_mock_bucketing halfStream _ hmem⟩

/-- C2 (counterexample): at probability `p = 0.72` (which lies in
`[0, 1]` and satisfies `p ≥ 0.70`) the code's bucketing returns
`"Medium Risk"`, not `"High Risk"`: the `HIGH` threshold in
`getDelinquencyRiskLevel` is 75 on the percentage scale, not 70. -/
theorem c2_bucketing_counterexample :
    Pages.getDelinquencyRiskLevel 0.72 = "Medium Risk"
    ∧ (0 : ℚ) ≤ 0.72 ∧ (0.72 : ℚ) ≤ 1 ∧ (0.70 : ℚ) ≤ 0.72
    ∧ "Medium Risk" ≠ "High Risk" := by
  refine ⟨?_, by norm_num, by norm_num, by norm_num, by decide⟩
  unfold Pages.getDelinquencyRiskLevel
  norm_num

/-- C2 (amended): for all probabilities `p ∈ [0, 1]`, the bucketing is
`"Low Risk"` iff `p < 0.40`, `"Medium Risk"` iff `0.40 ≤ p < 0.75`, and
`"High Risk"` iff `p ≥ 0.75` — the middle/high boundary is 0.75, not the
0.70 the claim states. -/
theorem c2_bucketing_thresholds (p : ℚ) (h0 : 0 ≤ p) (h1 : p ≤ 1) :
    (Pages.getDelinquencyRiskLevel p = "Low Risk" ↔ p < 0.40)
    ∧ (Pages.getDelinquencyRiskLevel p = "Medium Risk" ↔ 0.40 ≤ p ∧ p < 0.75)
    ∧ (Pages.getDelinquencyRiskLevel p = "High Risk" ↔ 0.75 ≤ p) := by
  simp only [Pages.getDelinquencyRiskLevel]
  split_ifs with h75 h40
  · exact ⟨iff_of_false (by decide) (by intro h; nlinarith),
      iff_of_false (by decide) (by rintro ⟨_, h⟩; nlinarith),
      iff_of_true rfl (by nlinarith)⟩
  · exact ⟨iff_of_false (by decide) (by intro h; nlinarith),
      iff_of_true rfl ⟨by nlinarith, by nlinarith⟩,
      iff_of_false (by decide) (by intro h; nlinarith)⟩
  · exact ⟨iff_of_true rfl (by nlinarith),
      iff_of_false (by decide) (by rintro ⟨h, _⟩; nlinarith),
      iff_of_false (by decide) (by intro h; nlinarith)⟩

theorem c2_bucketing_thresholds_witness :
    ((0 : ℚ) ≤ 1 / 2 ∧ (1 / 2 : ℚ) ≤ 1)
    ∧ ((Pages.getDelinquencyRiskLevel (1 / 2) = "Low Risk" ↔ (1 / 2 : ℚ) < 0.40)
        ∧ (Pages.getDelinquencyRiskLevel (1 / 2) = "Medium Risk"
            ↔ (0.40 : ℚ) ≤ 1 / 2 ∧ (1 / 2 : ℚ) < 0.75)
        ∧ (Pages.getDelinquencyRiskLevel (1 / 2) = "High Risk" ↔ (0.75 : ℚ) ≤ 1 / 2)) :=
  ⟨⟨by norm_num, by norm_num⟩, c2_bucketing_thresholds (1 / 2) (by norm_num) (by norm_num)⟩

namespace BackendApi

theorem ok_eq_false {α : Type} (status : ℕ) (d : Option String) (p : α)
    (h : ¬(200 ≤ status ∧ status < 300)) :
    (HttpResponse.ok { status := status, detail := d, payload := p } : Bool) = false := by
  have h1 : ¬(200 ≤ status) ∨ ¬(status < 300) := by tauto
  unfold HttpResponse.ok
  rcases h1 with h1 | h1 <;> simp [h1]

/-- The generic operations' thrown `Error("HTTP <status>")` never matches
the timeout sentinel. -/
theorem httpMsg_ne_timeout (s : String) : ("HTTP " ++ s) ≠ "REQUEST_TIMEOUT" := by
  intro h
  have h2 : ("HTTP ").data ++ s.data = "REQUEST_TIMEOUT".data := by
    rw [← String.data_append, h]
  simp at h2

/-- A placeholder parsed payload for each response type (irrelevant on the
error paths the theorems exercise). -/
def cxSummary : PortfolioSummary :=
  { low_risk_count := 0, medium_risk_count := 0, high_risk_count := 0,
    total_customers := 0, generated_at := "" }

def cxCustomerData : CustomerData :=
  { customer_id := "", avg_salary_day_6m := 0, current_salary_day := 0,
    salary_delay_days := 0, savings_6m_avg := 0, current_savings := 0,
    savings_drop_pct := 0, discretionary_spend_6m_avg := 0,
    current_discretionary_spend := 0, discretionary_drop_pct := 0,
    utility_payment_shift_days := 0, atm_withdrawal_increase_pct := 0,
    credit_utilization_pct := 0, past_emi_delays_6m := 0,
    historical_stability_index := 0, historical_category := 0 }

def cxPrediction : PredictionResponse :=
  { customer_id := "", risk_probability := 0, risk_category := "LOW",
    top_risk_drivers := [], model_version := "", prediction_timestamp := "" }

def cxDrilldown : CustomerDrilldown :=
  { customer_id := "", behavioural_score := 0, liquidity_score := 0,
    delinquency_probability := 0, contributing_features := [] }

def cxHealth : HealthResponse :=
  { status := "", model_loaded := false, customer_data_loaded := false,
    model_version := "", total_customers := 0 }

def cxIntervention : PredictAndSendResult :=
  { prediction := cxPrediction,
    intervention := { threshold_exceeded := false, email_sent := false,
                      email_subject := none, email_error := none } }

end BackendApi

/-- C1 (counterexample): two public API operations falsify the claim on
concrete non-2xx responses carrying a `detail` field.
`getPortfolioSummary`, on a response that arrives at 10 ms with status
404 and body `{"detail": "not found"}`, throws
`Error("Failed to load portfolio summary")` — its catch block routes the
`Error("HTTP 404")` through `normalizeFetchError`, which replaces it with
the operation's generic fallback, so the server-supplied detail is not
preserved for this operation.  And `getCustomerData`, on the same
response with the present-but-empty detail `""`, throws
`Error("HTTP 404")` rather than an error carrying the detail string: the
empty string is falsy under `error.detail || ...`. -/
theorem c1_detail_lost_counterexample :
    (BackendApi.getPortfolioSummary
        (.respondsAt 10 404 (some "not found") BackendApi.cxSummary)
      = .error "Failed to load portfolio summary"
      ∧ "Failed to load portfolio summary" ≠ "not found")
    ∧ (BackendApi.getCustomerData
        (.respondsAt 10 404 (some "") BackendApi.cxCustomerData)
      = .error "HTTP 404"
      ∧ "HTTP 404" ≠ "") := by
  refine ⟨⟨?_, by decide⟩, ⟨?_, by decide⟩⟩
  · with_unfolding_all rfl
  · with_unfolding_all rfl

/-- C1 (amended): of the eleven public API operations, exactly the four
that parse the error body (`getCustomerData`, `predictRisk`,
`getCustomerDrilldown`, `predictAndSendIntervention`) preserve a
non-empty server-supplied `detail` of a non-2xx response as the thrown
error's message (an empty-string detail is falsy under
`error.detail || ...` and falls back to `"HTTP <status>"`); the remaining
seven operations (`checkBackendHealth`, `getCustomerList`,
`getPortfolioSummary`, `getRiskTrend`, `getFeatureImportance`,
`getPortfolioHeatmap`, `getCustomerRiskList`) throw `Error("HTTP
<status>")` and normalize it to their fixed operation-specific fallback
message, losing the detail. -/
theorem c1_detail_preservation (t : ℚ) (status : ℕ) (d : String)
    (ht : t < BackendApi.REQUEST_TIMEOUT_MS)
    (hstatus : ¬(200 ≤ status ∧ status < 300)) (hd : d ≠ "") :
    (∀ p : BackendApi.CustomerData,
      BackendApi.getCustomerData (.respondsAt t status (some d) p) = .error d)
    ∧ (∀ p : BackendApi.PredictionResponse,
      BackendApi.predictRisk (.respondsAt t status (some d) p) = .error d)
    ∧ (∀ p : BackendApi.CustomerDrilldown,
      BackendApi.getCustomerDrilldown (.respondsAt t status (some d) p) = .error d)
    ∧ (∀ p : BackendApi.PredictAndSendResult,
      BackendApi.predictAndSendIntervention (.respondsAt t status (some d) p) = .error d)
    ∧ (∀ p : BackendApi.HealthResponse,
      BackendApi.checkBackendHealth (.respondsAt t status (some d) p)
        = .error "Unable to connect to backend. Ensure FastAPI server is running on http://localhost:8000")
    ∧ (∀ p : List String,
      BackendApi.getCustomerList (.respondsAt t status (some d) p)
        = .error "Unable to retrieve customer list from backend")
    ∧ (∀ p : BackendApi.PortfolioSummary,
      BackendApi.getPortfolioSummary (.respondsAt t status (some d) p)
        = .error "Failed to load portfolio summary")
    ∧ (∀ p : List BackendApi.RiskTrendPoint,
      BackendApi.getRiskTrend (.respondsAt t status (some d) p)
        = .error "Failed to load risk trend data")
    ∧ (∀ p : List BackendApi.FeatureImportancePoint,
      BackendApi.getFeatureImportance (.respondsAt t status (some d) p)
        = .error "Failed to load feature importance")
    ∧ (∀ p : List BackendApi.HeatmapRow,
      BackendApi.getPortfolioHeatmap (.respondsAt t status (some d) p)
        = .error "Failed to load heatmap data")
    ∧ (∀ p : List BackendApi.CustomerRiskItem,
      BackendApi.getCustomerRiskList (.respondsAt t status (some d) p)
        = .error "Failed to load customer risk list") := by
  have hok := fun (α : Type) (p : α) => BackendApi.ok_eq_false status (some d) p hstatus
  have hmsg : ∀ (fallback : String),
      BackendApi.rethrowOrNormalize (.jsError d) fallback = d := by
    intro fallback
    simp [BackendApi.rethrowOrNormalize, BackendApi.instanceofError, BackendApi.errMessage]
  refine ⟨?_, ?_, ?_, ?_, ?_, ?_, ?_, ?_, ?_, ?_, ?_⟩ <;> intro p <;>
    simp [BackendApi.getCustomerData, BackendApi.predictRisk,
      BackendApi.getCustomerDrilldown, BackendApi.predictAndSendIntervention,
      BackendApi.checkBackendHealth, BackendApi.getCustomerList,
      BackendApi.getPortfolioSummary, BackendApi.getRiskTrend,
      BackendApi.getFeatureImportance, BackendApi.getPortfolioHeatmap,
      BackendApi.getCustomerRiskList,
      BackendApi.tryDetailOp, BackendApi.tryGenericOp, BackendApi.fetchWithTimeout,
      if_pos ht, hok, BackendApi.jsOrStr, hd, hmsg,
      BackendApi.normalizeFetchError, BackendApi.errMessage,
      BackendApi.httpMsg_ne_timeout (toString status)]

theorem c1_detail_preservation_witness :
    ((10 : ℚ) < BackendApi.REQUEST_TIMEOUT_MS
      ∧ ¬(200 ≤ 404 ∧ 404 < 300) ∧ "not found" ≠ "")
    ∧ ((∀ p : BackendApi.CustomerData,
          BackendApi.getCustomerData (.respondsAt 10 404 (some "not found") p)
            = .error "not found")
        ∧ (∀ p : BackendApi.PredictionResponse,
          BackendApi.predictRisk (.respondsAt 10 404 (some "not found") p)
            = .error "not found")
        ∧ (∀ p : BackendApi.CustomerDrilldown,
          BackendApi.getCustomerDrilldown (.respondsAt 10 404 (some "not found") p)
            = .error "not found")
        ∧ (∀ p : BackendApi.PredictAndSendResult,
          BackendApi.predictAndSendIntervention (.respondsAt 10 404 (some "not found") p)
            = .error "not found")
        ∧ (∀ p : BackendApi.HealthResponse,
          BackendApi.checkBackendHealth (.respondsAt 10 404 (some "not found") p)
            = .error "Unable to connect to backend. Ensure FastAPI server is running on http://localhost:8000")
        ∧ (∀ p : List String,
          BackendApi.getCustomerList (.respondsAt 10 404 (some "not found") p)
            = .error "Unable to retrieve customer list from backend")
        ∧ (∀ p : BackendApi.PortfolioSummary,
          BackendApi.getPortfolioSummary (.respondsAt 10 404 (some "not found") p)
            = .error "Failed to load portfolio summary")
        ∧ (∀ p : List BackendApi.RiskTrendPoint,
          BackendApi.getRiskTrend (.respondsAt 10 404 (some "not found") p)
            = .error "Failed to load risk trend data")
        ∧ (∀ p : List BackendApi.FeatureImportancePoint,
          BackendApi.getFeatureImportance (.respondsAt 10 404 (some "not found") p)
            = .error "Failed to load feature importance")
        ∧ (∀ p : List BackendApi.HeatmapRow,
          BackendApi.getPortfolioHeatmap (.respondsAt 10 404 (some "not found") p)
            = .error "Failed to load heatmap data")
        ∧ (∀ p : List BackendApi.CustomerRiskItem,
          BackendApi.getCustomerRiskList (.respondsAt 10 404 (some "not found") p)
            = .error "Failed to load customer risk list")) := by
  have h1 : (10 : ℚ) < BackendApi.REQUEST_TIMEOUT_MS := by
    norm_num [BackendApi.REQUEST_TIMEOUT_MS]
  have h2 : ¬(200 ≤ 404 ∧ 404 < 300) := by decide
  have h3 : "not found" ≠ "" := by decide
  exact ⟨⟨h1, h2, h3⟩, c1_detail_preservation 10 404 "not found" h1 h2 h3⟩

/-- C5 (confirmed): against a backend that never responds, every one of
the eleven public API operations settles exactly at the 8000 ms deadline
with a timeout-specific error — the raw `Error("REQUEST_TIMEOUT")` for the
four operations whose catch rethrows `Error`s, and the normalized
timed-out message for the seven operations that always normalize — and
the internal timer is cleared on every path of the race, whichever branch
settles first. -/
theorem c5_timeout_behaviour :
    (BackendApi.fetchWithTimeout
        (.never : BackendApi.NetBehavior BackendApi.PredictionResponse)).settleTime
        = BackendApi.REQUEST_TIMEOUT_MS
    ∧ BackendApi.REQUEST_TIMEOUT_MS = 8000
    ∧ BackendApi.predictRisk .never = .error "REQUEST_TIMEOUT"
    ∧ BackendApi.getCustomerData .never = .error "REQUEST_TIMEOUT"
    ∧ BackendApi.getCustomerDrilldown .never = .error "REQUEST_TIMEOUT"
    ∧ BackendApi.predictAndSendIntervention .never = .error "REQUEST_TIMEOUT"
    ∧ BackendApi.checkBackendHealth .never = .error BackendApi.timedOutMessage
    ∧ BackendApi.getCustomerList .never = .error BackendApi.timedOutMessage
    ∧ BackendApi.getPortfolioSummary .never = .error BackendApi.timedOutMessage
    ∧ BackendApi.getRiskTrend .never = .error BackendApi.timedOutMessage
    ∧ BackendApi.getFeatureImportance .never = .error BackendApi.timedOutMessage
    ∧ BackendApi.getPortfolioHeatmap .never = .error BackendApi.timedOutMessage
    ∧ BackendApi.getCustomerRiskList .never = .error BackendApi.timedOutMessage
    ∧ ∀ (α : Type) (net : BackendApi.NetBehavior α),
        (BackendApi.fetchWithTimeout net).timerCleared = true := by
  refine ⟨rfl, rfl, rfl, rfl, rfl, rfl, rfl, rfl, rfl, rfl, rfl, rfl, rfl, ?_⟩
  intro α net
  rcases net with ⟨t, s, d, p⟩ | ⟨t, e⟩ | _ <;>
    simp only [BackendApi.fetchWithTimeout] <;>
    (try split) <;> rfl

namespace Pages

theorem byDescendingAbsValue_trans (a b c : FeaturePoint)
    (hab : byDescendingAbsValue a b = true) (hbc : byDescendingAbsValue b c = true) :
    byDescendingAbsValue a c = true := by
  simp only [byDescendingAbsValue, decide_eq_true_eq] at hab hbc ⊢
  exact le_trans hbc hab

theorem byDescendingAbsValue_total (a b : FeaturePoint) :
    (byDescendingAbsValue a b || byDescendingAbsValue b a) = true := by
  simp only [byDescendingAbsValue, Bool.or_eq_true, decide_eq_true_eq]
  exact le_total _ _

theorem byDescendingRisk_trans (a b c : BackendApi.CustomerRiskItem)
    (hab : byDescendingRisk a b = true) (hbc : byDescendingRisk b c = true) :
    byDescendingRisk a c = true := by
  simp only [byDescendingRisk, decide_eq_true_eq] at hab hbc ⊢
  exact le_trans hbc hab

theorem byDescendingRisk_total (a b : BackendApi.CustomerRiskItem) :
    (byDescendingRisk a b || byDescendingRisk b a) = true := by
  simp only [byDescendingRisk, Bool.or_eq_true, decide_eq_true_eq]
  exact le_total _ _

end Pages

/-- C9 (confirmed): for every fetched drilldown, the contributing-features
series is exactly the entries of its `contributing_features` map
(a permutation, hence the same multiset of entries), every adjacent pair —
indeed every pair — satisfies `|value|` descending, and the series is a
pure function of the `contributing_features` map alone. -/
theorem c9_contributing_series (d : BackendApi.CustomerDrilldown) :
    List.Perm (Pages.contributingSeries (some d))
      (d.contributing_features.map
        (fun p => ({ feature := p.1, value := p.2 } : Pages.FeaturePoint)))
    ∧ List.Pairwise (fun a b => |b.value| ≤ |a.value|) (Pages.contributingSeries (some d))
    ∧ ∀ d' : BackendApi.CustomerDrilldown,
        d.contributing_features = d'.contributing_features →
          Pages.contributingSeries (some d) = Pages.contributingSeries (some d') := by
  refine ⟨?_, ?_, ?_⟩
  · simp only [Pages.contributingSeries]
    exact List.mergeSort_perm _ _
  · simp only [Pages.contributingSeries]
    have h := @List.sorted_mergeSort _ Pages.byDescendingAbsValue
      (fun a b c hab hbc => Pages.byDescendingAbsValue_trans a b c hab hbc)
      (fun a b => Pages.byDescendingAbsValue_total a b)
      (d.contributing_features.map
        (fun p => ({ feature := p.1, value := p.2 } : Pages.FeaturePoint)))
    exact h.imp (fun hab => by
      simpa [Pages.byDescendingAbsValue, decide_eq_true_eq] using hab)
  · intro d' h
    simp [Pages.contributingSeries, h]

/-- C10 (confirmed): the alerts table holds exactly the fetched customers
with `risk_probability ≥ 0.3` that pass both the risk-category filter and
the intervention-status filter (as a permutation of the triple filter of
the fetched list), it is ordered by descending `risk_probability`, and no
customer with `risk_probability < 0.3` ever appears, whatever the filter
settings. -/
theorem c10_alert_customers (cs : List BackendApi.CustomerRiskItem)
    (riskFilter statusFilter : String) (sts : List (String × String)) :
    List.Perm (Pages.alertCustomers cs riskFilter statusFilter sts)
      (((cs.filter (fun c => decide ((0.3 : ℚ) ≤ c.risk_probability))).filter
          (fun c => riskFilter == "all" || c.risk_category == riskFilter)).filter
          (fun c => statusFilter == "all"
            || Pages.statusOf sts c.customer_id == statusFilter))
    ∧ List.Pairwise (fun a b => b.risk_probability ≤ a.risk_probability)
        (Pages.alertCustomers cs riskFilter statusFilter sts)
    ∧ ∀ c ∈ Pages.alertCustomers cs riskFilter statusFilter sts,
        (0.3 : ℚ) ≤ c.risk_probability := by
  have hsorted := @List.sorted_mergeSort _ Pages.byDescendingRisk
    (fun a b c hab hbc => Pages.byDescendingRisk_trans a b c hab hbc)
    (fun a b => Pages.byDescendingRisk_total a b)
    (cs.filter (fun c => decide ((0.3 : ℚ) ≤ c.risk_probability)))
  refine ⟨?_, ?_, ?_⟩
  · simp only [Pages.alertCustomers]
    exact ((List.mergeSort_perm _ _).filter _).filter _
  · simp only [Pages.alertCustomers]
    exact (List.Pairwise.sublist
      ((List.filter_sublist _).trans (List.filter_sublist _)) hsorted).imp
      (fun hab => by simpa [Pages.byDescendingRisk, decide_eq_true_eq] using hab)
  · intro c hc
    simp only [Pages.alertCustomers] at hc
    have h1 := List.mem_of_mem_filter hc
    have h2 := List.mem_of_mem_filter h1
    have h3 := (List.mergeSort_perm _ _).mem_iff.mp h2
    have h4 := List.of_mem_filter h3
    exact of_decide_eq_true h4

namespace EmailServer

/-- An SMTP configuration with nothing set. -/
def cxMissingCfg : SmtpConfig := mkSmtpConfig none none none none

/-- A request body with every required field except `selectedIntervention`. -/
def cxBodyNoIntervention : ReqBody :=
  { customerId := some "CUS-00042", customerName := some "CUS-00042",
    topSignal := some "Salary credit delay shift",
    selectedIntervention := none, officerNotes := none }

/-- A complete SMTP configuration. -/
def cxCompleteCfg : SmtpConfig :=
  mkSmtpConfig (some "smtp.example.com") (some "alerts-user") (some "secret")
    (some "alerts@example.com")

/-- A request body with every required field present. -/
def cxFullBody : ReqBody :=
  { customerId := some "CUS-00042", customerName := some "CUS-00042",
    topSignal := some "Salary credit delay shift",
    selectedIntervention := some "Payment holiday offer",
    officerNotes := some "Reviewed." }

end EmailServer

/-- C4 (counterexample): a request missing `selectedIntervention` sent to
a relay whose SMTP configuration is absent is answered with status 500
("Missing SMTP configuration in .env"), not 400 — the configuration check
precedes field validation — though no SMTP send is attempted either way. -/
theorem c4_missing_field_counterexample :
    (EmailServer.handleSendIntervention EmailServer.cxMissingCfg
        (EmailServer.fixedToAddress none) (some EmailServer.cxBodyNoIntervention)
        (.resolved "provider-message-id")).status = 500
    ∧ (EmailServer.handleSendIntervention EmailServer.cxMissingCfg
        (EmailServer.fixedToAddress none) (some EmailServer.cxBodyNoIntervention)
        (.resolved "provider-message-id")).status ≠ 400
    ∧ (EmailServer.handleSendIntervention EmailServer.cxMissingCfg
        (EmailServer.fixedToAddress none) (some EmailServer.cxBodyNoIntervention)
        (.resolved "provider-message-id")).sentMails = [] := by
  refine ⟨rfl, by decide, rfl⟩

/-- C4 (amended): a request with a missing (or empty) required field never
reaches the SMTP provider, and — provided the SMTP configuration is
complete, since the configuration check runs first and answers 500
otherwise — it is answered with status 400 and the plain-text body
"Missing required email fields". -/
theorem c4_missing_field_rejected (cfg : EmailServer.SmtpConfig) (fixedTo : String)
    (body : EmailServer.ReqBody) (send : EmailServer.SendOutcome)
    (hmiss : EmailServer.isFalsy body.customerId = true
      ∨ EmailServer.isFalsy body.customerName = true
      ∨ EmailServer.isFalsy body.topSignal = true
      ∨ EmailServer.isFalsy body.selectedIntervention = true) :
    (EmailServer.handleSendIntervention cfg fixedTo (some body) send).sentMails = []
    ∧ (EmailServer.hasMissingSmtpConfig cfg = false →
        (EmailServer.handleSendIntervention cfg fixedTo (some body) send).status = 400
        ∧ (EmailServer.handleSendIntervention cfg fixedTo (some body) send).body
            = .text "Missing required email fields") := by
  have hfields : (EmailServer.isFalsy body.customerId
      || EmailServer.isFalsy body.customerName || EmailServer.isFalsy body.topSignal
      || EmailServer.isFalsy body.selectedIntervention) = true := by
    simp only [Bool.or_eq_true]
    tauto
  by_cases hc : EmailServer.hasMissingSmtpConfig cfg = true
  · refine ⟨?_, ?_⟩
    · simp [EmailServer.handleSendIntervention, hc]
    · intro hfalse
      rw [hc] at hfalse
      cases hfalse
  · have hc' : EmailServer.hasMissingSmtpConfig cfg = false := by
      revert hc
      cases EmailServer.hasMissingSmtpConfig cfg <;> simp
    refine ⟨?_, fun _ => ⟨?_, ?_⟩⟩ <;>
      simp [EmailServer.handleSendIntervention, hc', hfields]

theorem c4_missing_field_rejected_witness :
    (EmailServer.isFalsy EmailServer.cxBodyNoIntervention.customerId = true
      ∨ EmailServer.isFalsy EmailServer.cxBodyNoIntervention.customerName = true
      ∨ EmailServer.isFalsy EmailServer.cxBodyNoIntervention.topSignal = true
      ∨ EmailServer.isFalsy EmailServer.cxBodyNoIntervention.selectedIntervention = true)
    ∧ ((EmailServer.handleSendIntervention EmailServer.cxCompleteCfg
          (EmailServer.fixedToAddress none) (some EmailServer.cxBodyNoIntervention)
          (.resolved "provider-message-id")).sentMails = []
        ∧ (EmailServer.hasMissingSmtpConfig EmailServer.cxCompleteCfg = false →
            (EmailServer.handleSendIntervention EmailServer.cxCompleteCfg
              (EmailServer.fixedToAddress none) (some EmailServer.cxBodyNoIntervention)
              (.resolved "provider-message-id")).status = 400
            ∧ (EmailServer.handleSendIntervention EmailServer.cxCompleteCfg
                (EmailServer.fixedToAddress none) (some EmailServer.cxBodyNoIntervention)
                (.resolved "provider-message-id")).body
                = .text "Missing required email fields")) := by
  have hmiss : EmailServer.isFalsy EmailServer.cxBodyNoIntervention.customerId = true
      ∨ EmailServer.isFalsy EmailServer.cxBodyNoIntervention.customerName = true
      ∨ EmailServer.isFalsy EmailServer.cxBodyNoIntervention.topSignal = true
      ∨ EmailServer.isFalsy EmailServer.cxBodyNoIntervention.selectedIntervention = true :=
    Or.inr (Or.inr (Or.inr rfl))
  exact ⟨hmiss, c4_missing_field_rejected EmailServer.cxCompleteCfg
    (EmailServer.fixedToAddress none) EmailServer.cxBodyNoIntervention
    (.resolved "provider-message-id") hmiss⟩

/-- C6 (confirmed): with complete SMTP configuration and every required
field present, the relay hands exactly one mail to the provider, that mail
is addressed to the fixed recipient, and on a successful send the response
is the JSON body `{messageId, to}` (status 200) carrying the provider's
message id. -/
theorem c6_send_success (cfg : EmailServer.SmtpConfig) (fixedTo : String)
    (body : EmailServer.ReqBody) (mid : String)
    (hcfg : EmailServer.hasMissingSmtpConfig cfg = false)
    (h1 : EmailServer.isFalsy body.customerId = false)
    (h2 : EmailServer.isFalsy body.customerName = false)
    (h3 : EmailServer.isFalsy body.topSignal = false)
    (h4 : EmailServer.isFalsy body.selectedIntervention = false) :
    ((EmailServer.handleSendIntervention cfg fixedTo (some body)
        (.resolved mid)).sentMails).length = 1
    ∧ (∀ m ∈ (EmailServer.handleSendIntervention cfg fixedTo (some body)
        (.resolved mid)).sentMails, m.toAddr = fixedTo)
    ∧ (EmailServer.handleSendIntervention cfg fixedTo (some body)
        (.resolved mid)).status = 200
    ∧ (EmailServer.handleSendIntervention cfg fixedTo (some body)
        (.resolved mid)).body = .json mid fixedTo := by
  refine ⟨?_, ?_, ?_, ?_⟩ <;>
    simp [EmailServer.handleSendIntervention, hcfg, h1, h2, h3, h4]

theorem c6_send_success_witness :
    (EmailServer.hasMissingSmtpConfig EmailServer.cxCompleteCfg = false
      ∧ EmailServer.isFalsy EmailServer.cxFullBody.customerId = false
      ∧ EmailServer.isFalsy EmailServer.cxFullBody.customerName = false
      ∧ EmailServer.isFalsy EmailServer.cxFullBody.topSignal = false
      ∧ EmailServer.isFalsy EmailServer.cxFullBody.selectedIntervention = false)
    ∧ (((EmailServer.handleSendIntervention EmailServer.cxCompleteCfg
          (EmailServer.fixedToAddress none) (some EmailServer.cxFullBody)
          (.resolved "provider-message-id")).sentMails).length = 1
        ∧ (∀ m ∈ (EmailServer.handleSendIntervention EmailServer.cxCompleteCfg
            (EmailServer.fixedToAddress none) (some EmailServer.cxFullBody)
            (.resolved "provider-message-id")).sentMails,
              m.toAddr = EmailServer.fixedToAddress none)
        ∧ (EmailServer.handleSendIntervention EmailServer.cxCompleteCfg
            (EmailServer.fixedToAddress none) (some EmailServer.cxFullBody)
            (.resolved "provider-message-id")).status = 200
        ∧ (EmailServer.handleSendIntervention EmailServer.cxCompleteCfg
            (EmailServer.fixedToAddress none) (some EmailServer.cxFullBody)
            (.resolved "provider-message-id")).body
            = .json "provider-message-id" (EmailServer.fixedToAddress none)) :=
  ⟨⟨rfl, rfl, rfl, rfl, rfl⟩,
    c6_send_success EmailServer.cxCompleteCfg (EmailServer.fixedToAddress none)
      EmailServer.cxFullBody "provider-message-id" rfl rfl rfl rfl rfl⟩
